import Mathlib

/-!
Verification of the DivyaDrishti surveillance system against its design
specification.  The definitions below are a shallow embedding of the
JavaScript sources: detection-engine.js (class DetectionEngine),
video-handler.js (class VideoHandler), and the tracker configuration in
bytetrack.yaml.  JavaScript numbers are modelled as rationals (every
constant appearing in the sources is exactly representable, and the
comparisons used by the code coincide with the rational ones), calls to
Math.random() become explicit rational draw parameters, Date.now() and
performance.now() become explicit natural-number clock parameters, and
DOM side effects (CustomEvent dispatch, console logging) are outside the
modelled state, exactly as they are outside the engine object's fields.
-/

namespace DD

/-- Empty string constant, used as the out-of-range default of list
lookups that the JavaScript code performs without a bounds check. -/
def strEmpty : String := ""

/-- A bounding box, the bbox object literal of the sources:
x, y, width, height in pixel units. -/
structure BBox where
  x : ℚ
  y : ℚ
  width : ℚ
  height : ℚ
deriving DecidableEq

/-- A detection produced by DetectionEngine.generateDetection:
class label, confidence, bounding box, timestamp, and the optional
tracking id (null when tracking is disabled). -/
structure Detection where
  cls : String
  confidence : ℚ
  bbox : BBox
  timestamp : ℕ
  id : Option ℕ
deriving DecidableEq

/-- One entry of the configs table of DetectionEngine.getModelConfig. -/
structure ModelConfig where
  classes : List String
  accuracy : ℚ
  speed : String
  maxDetections : ℕ
deriving DecidableEq

/-- The mutable fields of the DetectionEngine object (constructor,
detection-engine.js lines 5-20).  performanceMetrics and the DOM hooks
are omitted: no modelled operation reads them back. -/
structure EngineState where
  isActive : Bool
  trackingEnabled : Bool
  currentModel : String
  confidence : ℚ
  detectedObjects : List (String × Detection)
  trackingId : ℕ
  detectionHistory : List Detection
deriving DecidableEq

/-- The initial engine state built by the DetectionEngine constructor:
inactive, tracking off, model yolov11n, confidence 0.75, empty
collections, tracking id counter at 1. -/
def initEngine : EngineState :=
  { isActive := false
    trackingEnabled := false
    currentModel := "yolov11n"
    confidence := 3/4
    detectedObjects := []
    trackingId := 1
    detectionHistory := [] }

/-- DetectionEngine.getModelConfig: the literal configs table, with the
JavaScript fallback configs[modelName] || configs['yolov11n'] for an
unrecognized key. -/
def getModelConfig (modelName : String) : ModelConfig :=
  if modelName = "yolov11n" then
    { classes := [r"person", r"vehicle"], accuracy := 94/100,
      speed := "fast", maxDetections := 3 }
  else if modelName = "yolov11s" then
    { classes := [r"person", r"vehicle", r"animal"], accuracy := 96/100,
      speed := "medium", maxDetections := 4 }
  else if modelName = "yolov11m" then
    { classes := [r"person", r"vehicle", r"animal", r"object"], accuracy := 98/100,
      speed := "slow", maxDetections := 5 }
  else if modelName = "foottrail" then
    { classes := [r"person", r"unauthorized-trail", r"vegetation", r"structure"],
      accuracy := 92/100, speed := "medium", maxDetections := 2 }
  else
    { classes := [r"person", r"vehicle"], accuracy := 94/100,
      speed := "fast", maxDetections := 3 }

/-- The model identifiers that have an entry in the configs table. -/
def knownModels : List String :=
  [r"yolov11n", r"yolov11s", r"yolov11m", r"foottrail"]

/-- DetectionEngine.getTrackingId: when tracking is enabled it returns
the current counter value and post-increments it (return
this.trackingId++); otherwise it returns null and leaves the state
unchanged. -/
def getTrackingId (s : EngineState) : Option ℕ × EngineState :=
  if s.trackingEnabled then
    (some s.trackingId, { s with trackingId := s.trackingId + 1 })
  else
    (none, s)

/-- The Math.random() draws consumed by one call to
DetectionEngine.generateDetection (class index, confidence, and the four
draws of generateBoundingBox). -/
structure Draws where
  rClass : ℚ
  rConf : ℚ
  rW : ℚ
  rH : ℚ
  rX : ℚ
  rY : ℚ
deriving DecidableEq

/-- The all-zero draw vector. -/
def dDefault : Draws := { rClass := 0, rConf := 0, rW := 0, rH := 0, rX := 0, rY := 0 }

/-- DetectionEngine.generateBoundingBox with its draws made explicit:
width in 80..280, height in 120..420, x and y chosen inside a 1280x720
canvas. -/
def generateBoundingBox (d : Draws) : BBox :=
  let width := d.rW * 200 + 80
  let height := d.rH * 300 + 120
  { x := d.rX * (1280 - width), y := d.rY * (720 - height),
    width := width, height := height }

/-- DetectionEngine.generateDetection: picks a class by a random index
into the model's class list, a confidence uniform in
[this.confidence, 1] (random * (1 - confidence) + confidence), a random
bounding box, the current time, and a tracking id from getTrackingId
when tracking is enabled (null otherwise).  Returns the detection and
the updated engine state (the tracking counter may have advanced). -/
def generateDetection (s : EngineState) (cfg : ModelConfig) (d : Draws) (now : ℕ) :
    Detection × EngineState :=
  let className := cfg.classes.getD (Int.toNat ⌊d.rClass * (cfg.classes.length : ℚ)⌋) strEmpty
  let p := getTrackingId s
  ({ cls := className
     confidence := d.rConf * (1 - s.confidence) + s.confidence
     bbox := generateBoundingBox d
     timestamp := now
     id := p.1 }, p.2)

/-- n successive generateDetection calls with one fixed draw vector:
the engine state threads through, as when the same object is re-detected
in n successive frames at the same position. -/
def generateSeq (s : EngineState) (cfg : ModelConfig) (d : Draws) : ℕ → List Detection × EngineState
  | 0 => ([], s)
  | n + 1 =>
    let p := generateDetection s cfg d 0
    let r := generateSeq p.2 cfg d n
    (p.1 :: r.1, r.2)

/-- The for-loop of DetectionEngine.simulateDetections: n calls to
generateDetection, each consuming the next draw vector of the supplied
stream. -/
def genMany : EngineState → ModelConfig → List Draws → ℕ → List Detection × EngineState
  | s, _, _, 0 => ([], s)
  | s, cfg, ds, n + 1 =>
    let p := generateDetection s cfg (ds.headD dDefault) 0
    let r := genMany p.2 cfg ds.tail n
    (p.1 :: r.1, r.2)

/-- DetectionEngine.simulateDetections: with probability 0.2
(Math.random() > 0.8) it generates between 1 and maxDetections
detections, otherwise none.  rCount and rNum are the two draws deciding
the count, ds the draws of the individual detections. -/
def simulateDetections (s : EngineState) (rCount rNum : ℚ) (ds : List Draws) :
    List Detection × EngineState :=
  let cfg := getModelConfig s.currentModel
  let n := if 8/10 < rCount then Int.toNat ⌊rNum * (cfg.maxDetections : ℚ)⌋ + 1 else 0
  genMany s cfg ds n

/-- The history record pushed by DetectionEngine.storeDetection: the
detection with its timestamp replaced by the store time
({...detection, timestamp: new Date().toISOString()}). -/
def histEntry (d : Detection) (now : ℕ) : Detection :=
  { d with timestamp := now }

/-- JavaScript Map.set on an insertion-ordered association list:
overwrite an existing key in place, otherwise append. -/
def mapSet (m : List (String × Detection)) (k : String) (v : Detection) :
    List (String × Detection) :=
  if m.any (fun p => p.1 == k) then
    m.map (fun p => if p.1 == k then (k, v) else p)
  else
    m ++ [(k, v)]

/-- The underscore of the template literal key class_id used by
storeDetection. -/
def keySep : String := "_"

/-- DetectionEngine.storeDetection: keys the detection into
detectedObjects under class_id (class_now when the id is null), appends
a timestamped copy to detectionHistory, and drops the oldest entry when
the history exceeds 100 entries (shift after push). -/
def storeDetection (s : EngineState) (d : Detection) (now : ℕ) : EngineState :=
  let key := d.cls ++ keySep ++ (match d.id with | some n => toString n | none => toString now)
  let objects := mapSet s.detectedObjects key d
  let hist := s.detectionHistory ++ [histEntry d now]
  let hist2 := if 100 < hist.length then hist.tail else hist
  { s with detectedObjects := objects, detectionHistory := hist2 }

/-- The forEach body of DetectionEngine.processFrame: each detection
with confidence at or above the current threshold is handled
(handleDetection stores it; the display, log and alert calls are DOM
side effects), the rest are dropped.  Returns the final state and the
list of detections that were handled, in order. -/
def handleDetections : EngineState → List Detection → ℕ → EngineState × List Detection
  | s, [], _ => (s, [])
  | s, d :: ds, now =>
    if s.confidence ≤ d.confidence then
      let r := handleDetections (storeDetection s d now) ds now
      (r.1, d :: r.2)
    else
      handleDetections s ds now

/-- The external inputs of one frame cycle: the randomness consumed by
simulateDetections and the clock value. -/
structure FrameInput where
  rCount : ℚ
  rNum : ℚ
  draws : List Draws
  now : ℕ
deriving DecidableEq

/-- DetectionEngine.processFrame: simulate detections for the current
model, then filter-and-handle them against the confidence threshold. -/
def processFrame (s : EngineState) (f : FrameInput) : EngineState × List Detection :=
  let p := simulateDetections s f.rCount f.rNum f.draws
  handleDetections p.2 p.1 f.now

/-- DetectionEngine.clearAllDetections: clears detectedObjects and
resets the tracking id counter to 1. -/
def clearAllDetections (s : EngineState) : EngineState :=
  { s with detectedObjects := [], trackingId := 1 }

/-- DetectionEngine.clearTrackingData: resets the tracking id counter
to 1 and nulls the id of every stored detection. -/
def clearTrackingData (s : EngineState) : EngineState :=
  { s with trackingId := 1,
           detectedObjects := s.detectedObjects.map (fun p => (p.1, { p.2 with id := none })) }

/-- DetectionEngine.stop: deactivates the loop flag and clears all
detections (which resets the tracking id counter). -/
def stop (s : EngineState) : EngineState :=
  clearAllDetections { s with isActive := false }

/-- DetectionEngine.start (without the loop itself): sets the active
flag. -/
def start (s : EngineState) : EngineState :=
  { s with isActive := true }

/-- DetectionEngine.setModel: installs the given model name
unconditionally (the loading indicator and the deferred
updateModelPerformance call are DOM side effects). -/
def setModel (s : EngineState) (modelName : String) : EngineState :=
  { s with currentModel := modelName }

/-- DetectionEngine.enableTracking: sets the flag and, when disabling,
clears the tracking data. -/
def enableTracking (s : EngineState) (enabled : Bool) : EngineState :=
  let s2 := { s with trackingEnabled := enabled }
  if enabled then s2 else clearTrackingData s2

/-- DetectionEngine.startDetectionLoop driven by a list of per-frame
inputs (each requestAnimationFrame tick supplies one): the active flag
is checked at the top of every iteration (if (!this.isActive) return;),
and only then is processFrame invoked.  Returns the final state and the
number of frames actually processed. -/
def startDetectionLoop : EngineState → List FrameInput → EngineState × ℕ
  | s, [] => (s, 0)
  | s, f :: fs =>
    if s.isActive then
      let r := startDetectionLoop (processFrame s f).1 fs
      (r.1, r.2 + 1)
    else
      (s, 0)

/-- The engine-lifetime commands that allocate tracking identifiers or
reset the allocator: a frame in which a detection is generated, the
stop and start commands, and the tracking toggle. -/
inductive EngineCmd where
  | detectFrame (d : Draws)
  | doStop
  | doStart
  | setTracking (b : Bool)
deriving DecidableEq

/-- Run a command list from a state, collecting every tracking
identifier allocated by getTrackingId along the way (in allocation
order). -/
def runCmds : EngineState → List EngineCmd → EngineState × List ℕ
  | s, [] => (s, [])
  | s, EngineCmd.detectFrame d :: cs =>
    let p := generateDetection s (getModelConfig s.currentModel) d 0
    let r := runCmds p.2 cs
    (r.1, p.1.id.toList ++ r.2)
  | s, EngineCmd.doStop :: cs => runCmds (stop s) cs
  | s, EngineCmd.doStart :: cs => runCmds (start s) cs
  | s, EngineCmd.setTracking b :: cs => runCmds (enableTracking s b) cs

/-- A command list that never resets the identifier allocator: it
contains no stop command and no tracking-disable command. -/
def noReset (cs : List EngineCmd) : Prop :=
  ∀ c ∈ cs, c ≠ EngineCmd.doStop ∧ c ≠ EngineCmd.setTracking false

instance (cs : List EngineCmd) : Decidable (noReset cs) := by
  unfold noReset; infer_instance

/-! VideoHandler (video-handler.js). -/

/-- A detection of VideoHandler.generateRandomDetection: random id in
0..99, class person, confidence in [0.7, 1.0], random bounding box,
and a color drawn by getRandomColor. -/
structure VHDetection where
  id : ℕ
  cls : String
  confidence : ℚ
  bbox : BBox
  color : String
deriving DecidableEq

/-- The eight-entry color palette of VideoHandler.getRandomColor. -/
def vhColors : List String :=
  [r"#00E5FF", r"#39FF14", r"#FF5252", r"#FFA726",
   r"#AB47BC", r"#42A5F5", r"#66BB6A", r"#FF7043"]

/-- VideoHandler.getRandomColor with its draw made explicit:
colors[Math.floor(r * colors.length)].  The lookup consults nothing but
the draw - in particular not the colors already in use. -/
def getRandomColor (r : ℚ) : String :=
  vhColors.getD (Int.toNat ⌊r * (vhColors.length : ℚ)⌋) strEmpty

/-- VideoHandler.generateRandomDetection with the canvas extent and all
seven Math.random() draws explicit.  Each call draws its id and its
color afresh, independently of every earlier detection. -/
def generateRandomDetection (cw ch rId rConf rX rY rW rH rColor : ℚ) : VHDetection :=
  { id := Int.toNat ⌊rId * 100⌋
    cls := "person"
    confidence := rConf * (3/10) + 7/10
    bbox := { x := rX * (cw - 150), y := rY * (ch - 200),
              width := 100 + rW * 50, height := 150 + rH * 50 }
    color := getRandomColor rColor }

/-! Tracker lifecycle, configured by bytetrack.yaml. -/

/-- track_buffer from bytetrack.yaml line 11: the number of frames a
lost track is kept. -/
def track_buffer : ℕ := 30

/-- match_thresh from bytetrack.yaml line 14: the IoU threshold for
matching detections to tracks. -/
def match_thresh : ℚ := 8/10

/-- Modelled from the spec: the Track lifecycle states of section 3.
The tracker implementation itself is the external ByteTrack library
invoked through ultralytics; this repository only ships its
configuration (bytetrack.yaml), so the state machine is taken from the
specification. -/
inductive TrackState where
  | Tentative
  | Confirmed
  | Lost
  | Removed
deriving DecidableEq

/-- Modelled from the spec: the per-track fields that the lifecycle
rules of section 3 and section 4.2 read - identifier, state, and the
time-since-update counter.  The remaining track attributes (box,
velocity, class, color) play no role in the removal timing. -/
structure Track where
  tid : ℕ
  state : TrackState
  timeSinceUpdate : ℕ
deriving DecidableEq

/-- Modelled from the spec: one unmatched frame applied to a track
(section 4.2 step 5): increment time-since-update, demote Confirmed to
Lost on the first miss, and transition to Removed once time-since-update
exceeds track_buffer - the rule the section 8 scenario restates as
removal on frame 31 after loss, not frame 30, for track_buffer 30. -/
def ageTrack (t : Track) : Track :=
  let tsu := t.timeSinceUpdate + 1
  { t with
    timeSinceUpdate := tsu
    state :=
      if track_buffer < tsu then TrackState.Removed
      else if t.state = TrackState.Confirmed then TrackState.Lost
      else t.state }

/-- n consecutive unmatched frames applied to a track. -/
def ageTrackN (t : Track) : ℕ → Track
  | 0 => t
  | n + 1 => ageTrack (ageTrackN t n)

/-- The track of the section 8 scenario right after its last matched
detection: confirmed, with time-since-update 0. -/
def scenarioTrack : Track :=
  { tid := 1, state := TrackState.Confirmed, timeSinceUpdate := 0 }

/-! Frame Governor, modelled from the spec (section 4.3).  The
governor's implementation (frame_processor.py in the README's project
structure) is not among the sources; the README only shows its
configuration switches (ADAPTIVE_SKIP_FRAMES, SKIP_FRAMES, MAX_FPS). -/

/-- Modelled from the spec: the Governor State of section 3 - the
rolling latency measurement (an exponentially-weighted moving average),
the current skip interval, and the consecutive-comfortable-cycle
counter realizing the hysteresis of section 4.3. -/
structure GovState where
  avg : ℚ
  skip : ℕ
  underCount : ℕ
deriving DecidableEq

/-- Modelled from the spec: the governor's configuration - the EWMA
weight of the newest sample, the per-frame budget implied by the target
frame rate, the comfortably-under-budget level, the skip ceiling, and
the sustained-window length of the hysteresis.  Section 4.3 fixes none
of these constants. -/
structure GovConfig where
  alpha : ℚ
  budget : ℚ
  comfort : ℚ
  ceiling : ℕ
  window : ℕ
deriving DecidableEq

/-- Modelled from the spec: one governor cycle (section 4.3).  The
moving average absorbs the new latency sample; if it exceeds the budget
the skip interval grows toward the ceiling and the hysteresis counter
resets; if it is comfortably under budget for the sustained window the
interval returns to 1 (process every frame); otherwise everything but
the average is held (hysteresis dead zone). -/
def govStep (c : GovConfig) (g : GovState) (sample : ℚ) : GovState :=
  let avg := (1 - c.alpha) * g.avg + c.alpha * sample
  if c.budget < avg then
    { avg := avg, skip := min (g.skip + 1) c.ceiling, underCount := 0 }
  else if avg ≤ c.comfort then
    let uc := g.underCount + 1
    if c.window ≤ uc then
      { avg := avg, skip := 1, underCount := uc }
    else
      { avg := avg, skip := g.skip, underCount := uc }
  else
    { avg := avg, skip := g.skip, underCount := 0 }

/-- A sequence of governor cycles. -/
def govRun (c : GovConfig) (g : GovState) (samples : List ℚ) : GovState :=
  samples.foldl (govStep c) g

/-- The skip interval after each cycle of a sample sequence. -/
def govTrace (c : GovConfig) : GovState → List ℚ → List ℕ
  | _, [] => []
  | g, x :: xs =>
    let g2 := govStep c g x
    g2.skip :: govTrace c g2 xs

/-- A concrete governor configuration: EWMA weight 1/2, a 10 ms budget,
comfort level 5 ms, ceiling 100, hysteresis window 3. -/
def gCfg : GovConfig :=
  { alpha := 1/2, budget := 10, comfort := 5, ceiling := 100, window := 3 }

/-- The governor's start state: empty average, skip interval 1. -/
def gInit : GovState := { avg := 0, skip := 1, underCount := 0 }

/-- Ten consecutive cycles of an 11 ms latency, each sample over the
10 ms budget. -/
def govSamples : List ℚ := List.replicate 10 11

/-! Concrete inputs used by the counterexamples and witnesses. -/

/-- The engine with tracking enabled, as after enableTracking(true). -/
def sTrack : EngineState := { initEngine with trackingEnabled := true }

/-- An unrecognized model identifier. -/
def bogusModelKey : String := "bogus"

/-- A second unrecognized model identifier. -/
def missingModelKey : String := "missing-model"

/-- The default model identifier of the configs table. -/
def defaultModelKey : String := "yolov11n"

/-- An engine whose active model is yolov11m. -/
def prevState : EngineState := { initEngine with currentModel := "yolov11m" }

/-- Commands exercising an allocation on either side of a stop/start
transition: enable tracking, detect, stop, start, detect. -/
def cexCmds : List EngineCmd :=
  [EngineCmd.setTracking true, EngineCmd.detectFrame dDefault,
   EngineCmd.doStop, EngineCmd.doStart, EngineCmd.detectFrame dDefault]

/-- A reset-free command list with two allocations. -/
def wCmds : List EngineCmd :=
  [EngineCmd.setTracking true, EngineCmd.detectFrame dDefault,
   EngineCmd.detectFrame dDefault]

/-- A frame input that yields exactly one simulated detection
(rCount 0.9 exceeds 0.8; rNum 0 gives floor(0*max)+1 = 1). -/
def wFrame : FrameInput := { rCount := 9/10, rNum := 0, draws := [dDefault], now := 0 }

/-- A frame input that yields no simulated detection (rCount 0.5). -/
def wFrameEmpty : FrameInput := { rCount := 1/2, rNum := 0, draws := [dDefault], now := 0 }

/-- The detection the all-zero draw vector produces from initEngine:
person at (0,0) 80x120 with confidence exactly the 0.75 threshold and
no id (tracking disabled). -/
def wDet : Detection :=
  { cls := "person", confidence := 3/4,
    bbox := { x := 0, y := 0, width := 80, height := 120 },
    timestamp := 0, id := none }

/-- VideoHandler detection from draws with rId 0.42 and rColor 0:
id 42, color first palette entry. -/
def vhd1 : VHDetection := generateRandomDetection 1280 720 (42/100) 0 0 0 0 0 0

/-- VideoHandler detection from draws with rId 0.425 and rColor 1/8:
the same id 42, but the second palette entry. -/
def vhd2 : VHDetection := generateRandomDetection 1280 720 (425/1000) 0 0 0 0 0 (1/8)

/-- VideoHandler detection from draws with rId 0.43 and rColor 0:
id 43 and the first palette entry again. -/
def vhd3 : VHDetection := generateRandomDetection 1280 720 (43/100) 0 0 0 0 0 0

/-- Modelled from the spec: intersection-over-union of two boxes
(glossary) - ratio of overlapping area to union area.  No IoU
computation appears in the JavaScript sources; the definition follows
the glossary so that the zero-motion premise of the stable-identity
property can be stated. -/
def iou (a b : BBox) : ℚ :=
  let ix := max a.x b.x
  let iy := max a.y b.y
  let ix2 := min (a.x + a.width) (b.x + b.width)
  let iy2 := min (a.y + a.height) (b.y + b.height)
  let iw := max 0 (ix2 - ix)
  let ih := max 0 (iy2 - iy)
  let inter := iw * ih
  let uni := a.width * a.height + b.width * b.height - inter
  if uni = 0 then 0 else inter / uni

/-! Helper lemmas about the embedded operations. -/

theorem generateDetection_snd (s : EngineState) (cfg : ModelConfig) (d : Draws) (now : ℕ) :
    (generateDetection s cfg d now).2 =
      if s.trackingEnabled then { s with trackingId := s.trackingId + 1 } else s := by
  show (getTrackingId s).2 = _
  unfold getTrackingId
  split <;> rfl

theorem generateDetection_fst_id (s : EngineState) (cfg : ModelConfig) (d : Draws) (now : ℕ) :
    (generateDetection s cfg d now).1.id =
      if s.trackingEnabled then some s.trackingId else none := by
  show (getTrackingId s).1 = _
  unfold getTrackingId
  split <;> rfl

theorem genMany_snd_confidence (cfg : ModelConfig) (n : ℕ) :
    ∀ (s : EngineState) (ds : List Draws), (genMany s cfg ds n).2.confidence = s.confidence := by
  induction n with
  | zero => intro s ds; rfl
  | succ n ih =>
    intro s ds
    show (genMany (generateDetection s cfg (ds.headD dDefault) 0).2 cfg ds.tail n).2.confidence = _
    rw [ih, generateDetection_snd]
    split <;> rfl

theorem genMany_snd_history (cfg : ModelConfig) (n : ℕ) :
    ∀ (s : EngineState) (ds : List Draws),
      (genMany s cfg ds n).2.detectionHistory = s.detectionHistory := by
  induction n with
  | zero => intro s ds; rfl
  | succ n ih =>
    intro s ds
    show (genMany (generateDetection s cfg (ds.headD dDefault) 0).2 cfg ds.tail n).2.detectionHistory = _
    rw [ih, generateDetection_snd]
    split <;> rfl

theorem simulateDetections_snd_confidence (s : EngineState) (rc rn : ℚ) (ds : List Draws) :
    (simulateDetections s rc rn ds).2.confidence = s.confidence :=
  genMany_snd_confidence _ _ s ds

theorem simulateDetections_snd_history (s : EngineState) (rc rn : ℚ) (ds : List Draws) :
    (simulateDetections s rc rn ds).2.detectionHistory = s.detectionHistory :=
  genMany_snd_history _ _ s ds

theorem mem_storeDetection_history (s : EngineState) (d : Detection) (now : ℕ) (e : Detection)
    (he : e ∈ (storeDetection s d now).detectionHistory) :
    e ∈ s.detectionHistory ∨ e = histEntry d now := by
  have key : e ∈ s.detectionHistory ++ [histEntry d now] := by
    simp only [storeDetection] at he
    split at he
    · exact List.tail_subset _ he
    · exact he
  rcases List.mem_append.mp key with h | h
  · exact Or.inl h
  · exact Or.inr (by simpa using h)

theorem handleDetections_spec (dets : List Detection) (now : ℕ) :
    ∀ s : EngineState,
      (∀ d ∈ (handleDetections s dets now).2, s.confidence ≤ d.confidence)
    ∧ (∀ e ∈ (handleDetections s dets now).1.detectionHistory,
        e ∈ s.detectionHistory ∨ s.confidence ≤ e.confidence) := by
  induction dets with
  | nil =>
    intro s
    constructor
    · intro d hd; simp [handleDetections] at hd
    · intro e he; simp only [handleDetections] at he; exact Or.inl he
  | cons d ds ih =>
    intro s
    by_cases hc : s.confidence ≤ d.confidence
    · have hconf : (storeDetection s d now).confidence = s.confidence := rfl
      constructor
      · intro x hx
        simp only [handleDetections, if_pos hc] at hx
        rcases List.mem_cons.mp hx with h1 | h1
        · exact h1 ▸ hc
        · have h2 := (ih (storeDetection s d now)).1 x h1
          rwa [hconf] at h2
      · intro e he
        simp only [handleDetections, if_pos hc] at he
        rcases (ih (storeDetection s d now)).2 e he with h1 | h1
        · rcases mem_storeDetection_history s d now e h1 with h2 | h2
          · exact Or.inl h2
          · right; rw [h2]; exact hc
        · right; rwa [hconf] at h1
    · constructor
      · intro x hx
        simp only [handleDetections, if_neg hc] at hx
        exact (ih s).1 x hx
      · intro e he
        simp only [handleDetections, if_neg hc] at he
        exact (ih s).2 e he

/-! Claim theorems. -/

/-- C3: every detection that processFrame passes on for handling has
confidence at or above the engine's current threshold, and every entry
that the frame adds to the detection history likewise meets the
threshold - no detection scoring below the threshold is handled or
stored, for any threshold. -/
theorem handled_detections_meet_threshold (s : EngineState) (f : FrameInput) :
    (∀ d ∈ (processFrame s f).2, s.confidence ≤ d.confidence)
  ∧ (∀ e ∈ (processFrame s f).1.detectionHistory,
      e ∈ s.detectionHistory ∨ s.confidence ≤ e.confidence) := by
  have hc := simulateDetections_snd_confidence s f.rCount f.rNum f.draws
  have hh := simulateDetections_snd_history s f.rCount f.rNum f.draws
  have hs := handleDetections_spec (simulateDetections s f.rCount f.rNum f.draws).1 f.now
      (simulateDetections s f.rCount f.rNum f.draws).2
  constructor
  · intro d hd
    have h2 := hs.1 d hd
    rwa [hc] at h2
  · intro e he
    have h2 := hs.2 e he
    rw [hc, hh] at h2
    exact h2

/-- C3 witness: the frame input wFrame makes initEngine handle the
concrete detection wDet, whose confidence meets the 0.75 threshold. -/
theorem handled_detections_meet_threshold_witness :
    initEngine.confidence ≤ wDet.confidence :=
  (handled_detections_meet_threshold initEngine wFrame).1 wDet (by with_unfolding_all decide)

/-- C9: stopping the engine is effective immediately - the loop checks
the active flag at the top of every iteration, so after stop no frame
at all is processed, however many animation ticks still arrive, and the
state stays exactly the stopped state. -/
theorem stop_halts_loop (s : EngineState) (frames : List FrameInput) :
    startDetectionLoop (stop s) frames = (stop s, 0) := by
  cases frames with
  | nil => rfl
  | cons f fs =>
    have h : (stop s).isActive = false := rfl
    simp [startDetectionLoop, h]

/-- C10: storeDetection keeps the detection history at no more than 100
entries, and when the history is at capacity the oldest entry is
evicted and the new timestamped entry appended. -/
theorem history_bounded_and_evicts (s : EngineState) (d : Detection) (now : ℕ)
    (h : s.detectionHistory.length ≤ 100) :
    (storeDetection s d now).detectionHistory.length ≤ 100
  ∧ (s.detectionHistory.length = 100 →
      (storeDetection s d now).detectionHistory =
        s.detectionHistory.tail ++ [histEntry d now]) := by
  constructor
  · simp only [storeDetection]
    split
    · rename_i hgt
      rw [List.length_tail]
      simp only [List.length_append, List.length_cons, List.length_nil] at hgt ⊢
      omega
    · rename_i hle
      simp only [List.length_append, List.length_cons, List.length_nil, not_lt] at hle ⊢
      omega
  · intro h100
    simp only [storeDetection]
    rw [if_pos (by simp [h100])]
    cases hl : s.detectionHistory with
    | nil => rw [hl] at h100; simp at h100
    | cons a t => simp [hl]

/-- C10 witness: the bound applied to the fresh engine state. -/
theorem history_bounded_and_evicts_witness :
    initEngine.detectionHistory.length ≤ 100 ∧
    ((storeDetection initEngine wDet 0).detectionHistory.length ≤ 100 ∧
     (initEngine.detectionHistory.length = 100 →
       (storeDetection initEngine wDet 0).detectionHistory =
         initEngine.detectionHistory.tail ++ [histEntry wDet 0])) :=
  ⟨by decide, history_bounded_and_evicts initEngine wDet 0 (by decide)⟩

/-- C1 counterexample: with tracking enabled, the engine re-detects the
same object in the next frame at exactly the same position - zero
motion, so the boxes coincide and their IoU meets match_thresh - yet
the tracking identifier attached to the second detection differs from
the first: getTrackingId hands out a fresh identifier on every call. -/
theorem stable_redetection_id_cex :
    let s0 := sTrack
    let cfg := getModelConfig s0.currentModel
    let r1 := generateDetection s0 cfg dDefault 0
    let r2 := generateDetection r1.2 cfg dDefault 1
    r1.1.bbox = r2.1.bbox ∧ match_thresh ≤ iou r1.1.bbox r2.1.bbox ∧ r1.1.id ≠ r2.1.id := by
  with_unfolding_all decide

/-- C1 amended: with tracking enabled, the identifier attached to the
detection of frame k of a stable re-detection sequence is the engine's
counter plus k - a fresh, strictly increasing identifier every frame,
never a constant one (it is constant only for one-frame sequences). -/
theorem tracking_ids_increment_per_frame (cfg : ModelConfig) (d : Draws) (n : ℕ) :
    ∀ s : EngineState, s.trackingEnabled = true →
      (generateSeq s cfg d n).1.map (fun t => t.id)
        = (List.range n).map (fun k => some (s.trackingId + k)) := by
  induction n with
  | zero => intro s _; simp [generateSeq]
  | succ n ih =>
    intro s h
    have h2 : (generateDetection s cfg d 0).2.trackingEnabled = true := by
      rw [generateDetection_snd, if_pos h]
      exact h
    have h3 : (generateDetection s cfg d 0).2.trackingId = s.trackingId + 1 := by
      rw [generateDetection_snd, if_pos h]
    have h4 : (generateDetection s cfg d 0).1.id = some s.trackingId := by
      rw [generateDetection_fst_id, if_pos h]
    show ((generateDetection s cfg d 0).1 ::
        (generateSeq (generateDetection s cfg d 0).2 cfg d n).1).map (fun t => t.id) = _
    rw [List.map_cons, h4, ih _ h2, h3]
    rw [List.range_succ_eq_map, List.map_cons, List.map_map]
    congr 1
    apply List.map_congr_left
    intro k _
    exact congrArg some (by omega)

/-- C1 witness: three frames of the same stable detection from the
tracking-enabled engine carry identifiers 1, 2, 3. -/
theorem tracking_ids_increment_per_frame_witness :
    sTrack.trackingEnabled = true ∧
    (generateSeq sTrack (getModelConfig sTrack.currentModel) dDefault 3).1.map (fun t => t.id)
      = (List.range 3).map (fun k => some (sTrack.trackingId + k)) :=
  ⟨rfl, tracking_ids_increment_per_frame (getModelConfig sTrack.currentModel) dDefault 3 sTrack rfl⟩

/-- C2 counterexample: one allocation, a stop/start transition, and a
second allocation.  stop resets the identifier counter to 1, so both
allocations of the engine's lifetime yield identifier 1 - the later
allocation is not larger than the earlier one. -/
theorem id_reuse_after_stop_cex :
    (runCmds initEngine cexCmds).2 = [1, 1]
  ∧ ¬ List.Pairwise (· < ·) (runCmds initEngine cexCmds).2 :=
  ⟨by decide, by decide⟩

theorem runCmds_ids_strict_mono (cs : List EngineCmd) (h : noReset cs) :
    ∀ s : EngineState,
      List.Pairwise (· < ·) (runCmds s cs).2
    ∧ ∀ i ∈ (runCmds s cs).2, s.trackingId ≤ i := by
  induction cs with
  | nil =>
    intro s
    exact ⟨List.Pairwise.nil, fun i hi => absurd hi (List.not_mem_nil i)⟩
  | cons c cs ih =>
    have hc := h c (List.mem_cons_self c cs)
    have h2 : noReset cs := fun x hx => h x (List.mem_cons_of_mem c hx)
    intro s
    match c with
    | EngineCmd.doStop => exact absurd rfl hc.1
    | EngineCmd.doStart => exact ih h2 (start s)
    | EngineCmd.setTracking b =>
      cases b with
      | false => exact absurd rfl hc.2
      | true => exact ih h2 (enableTracking s true)
    | EngineCmd.detectFrame d =>
      have egoal : (runCmds s (EngineCmd.detectFrame d :: cs)).2
          = (generateDetection s (getModelConfig s.currentModel) d 0).1.id.toList
            ++ (runCmds (generateDetection s (getModelConfig s.currentModel) d 0).2 cs).2 := rfl
      have h3 := ih h2 (generateDetection s (getModelConfig s.currentModel) d 0).2
      by_cases ht : s.trackingEnabled
      · have hid : (generateDetection s (getModelConfig s.currentModel) d 0).1.id
            = some s.trackingId := by
          rw [generateDetection_fst_id, if_pos ht]
        have hsnd : (generateDetection s (getModelConfig s.currentModel) d 0).2.trackingId
            = s.trackingId + 1 := by
          rw [generateDetection_snd, if_pos ht]
        rw [hsnd] at h3
        rw [egoal, hid]
        simp only [Option.toList_some, List.singleton_append]
        constructor
        · apply List.Pairwise.cons
          · intro b hb
            have h4 := h3.2 b hb
            omega
          · exact h3.1
        · intro i hi
          rcases List.mem_cons.mp hi with h5 | h5
          · exact h5 ▸ le_refl _
          · have h4 := h3.2 i h5
            omega
      · have hid : (generateDetection s (getModelConfig s.currentModel) d 0).1.id = none := by
          rw [generateDetection_fst_id, if_neg ht]
        have hsnd : (generateDetection s (getModelConfig s.currentModel) d 0).2.trackingId
            = s.trackingId := by
          rw [generateDetection_snd, if_neg ht]
        rw [hsnd] at h3
        rw [egoal, hid]
        simp only [Option.toList_none, List.nil_append]
        exact h3

/-- C2 amended: within any command sequence free of resets - no stop
and no tracking-disable - the tracking identifiers are allocated in
strictly increasing order; the monotonicity claim fails only across the
stop/start and tracking-toggle transitions, which reset the counter
to 1. -/
theorem id_allocations_increase_without_reset (s : EngineState) (cs : List EngineCmd)
    (h : noReset cs) : List.Pairwise (· < ·) (runCmds s cs).2 :=
  (runCmds_ids_strict_mono cs h s).1

/-- C2 witness: a reset-free run with two allocations yields the
strictly increasing identifiers 1, 2. -/
theorem id_allocations_increase_without_reset_witness :
    noReset wCmds ∧ List.Pairwise (· < ·) (runCmds initEngine wCmds).2 :=
  ⟨by decide, id_allocations_increase_without_reset initEngine wCmds (by decide)⟩

/-- C4 counterexample: two runs of the per-frame detection step from
the identical prior engine state with the identical thresholds - only
the Math.random draws differ - produce different outputs (one run
yields a detection, the other none), so the step is not a function of
the state and thresholds alone. -/
theorem per_frame_step_randomness_cex :
    simulateDetections initEngine (9/10) 0 [dDefault]
      ≠ simulateDetections initEngine (1/2) 0 [dDefault] := by
  with_unfolding_all decide

/-- C4 amended: the per-frame step is a pure function of the prior
state and the pseudorandom draws, and its identifier assignment and
resulting engine state do not depend on the drawn classes, confidences
or boxes at all - two runs from the same state generating the same
number of detections assign identical identifier sequences and reach
identical states, whatever the draws; only the detections' contents and
their count vary with the random source. -/
theorem id_assignment_independent_of_draws (cfg : ModelConfig) (n : ℕ) :
    ∀ (s : EngineState) (ds1 ds2 : List Draws),
      (genMany s cfg ds1 n).1.map (fun t => t.id)
        = (genMany s cfg ds2 n).1.map (fun t => t.id)
    ∧ (genMany s cfg ds1 n).2 = (genMany s cfg ds2 n).2 := by
  induction n with
  | zero => intro s ds1 ds2; exact ⟨rfl, rfl⟩
  | succ n ih =>
    intro s ds1 ds2
    have e1 : (generateDetection s cfg (ds1.headD dDefault) 0).1.id
        = (generateDetection s cfg (ds2.headD dDefault) 0).1.id := by
      rw [generateDetection_fst_id, generateDetection_fst_id]
    have e2 : (generateDetection s cfg (ds1.headD dDefault) 0).2
        = (generateDetection s cfg (ds2.headD dDefault) 0).2 := by
      rw [generateDetection_snd, generateDetection_snd]
    have ih2 := ih (generateDetection s cfg (ds1.headD dDefault) 0).2 ds1.tail ds2.tail
    constructor
    · show ((generateDetection s cfg (ds1.headD dDefault) 0).1 ::
          (genMany (generateDetection s cfg (ds1.headD dDefault) 0).2 cfg ds1.tail n).1).map (fun t => t.id)
        = ((generateDetection s cfg (ds2.headD dDefault) 0).1 ::
          (genMany (generateDetection s cfg (ds2.headD dDefault) 0).2 cfg ds2.tail n).1).map (fun t => t.id)
      rw [List.map_cons, List.map_cons, e1, ih2.1, e2]
    · show (genMany (generateDetection s cfg (ds1.headD dDefault) 0).2 cfg ds1.tail n).2
        = (genMany (generateDetection s cfg (ds2.headD dDefault) 0).2 cfg ds2.tail n).2
      rw [ih2.2, e2]

theorem ageTrackN_timeSinceUpdate (t : Track) (n : ℕ) :
    (ageTrackN t n).timeSinceUpdate = t.timeSinceUpdate + n := by
  induction n with
  | zero => rfl
  | succ n ih =>
    show (ageTrack (ageTrackN t n)).timeSinceUpdate = _
    simp only [ageTrack]
    rw [ih]
    omega

theorem ageTrackN_not_removed (t : Track) (n : ℕ) (ht : t.state ≠ TrackState.Removed)
    (hn : t.timeSinceUpdate + n ≤ track_buffer) :
    (ageTrackN t n).state ≠ TrackState.Removed := by
  induction n with
  | zero => exact ht
  | succ n ih =>
    have h1 : (ageTrackN t n).state ≠ TrackState.Removed := ih (by omega)
    have h2 := ageTrackN_timeSinceUpdate t n
    show (ageTrack (ageTrackN t n)).state ≠ TrackState.Removed
    simp only [ageTrack]
    rw [if_neg (by omega)]
    split
    · exact fun hcon => TrackState.noConfusion hcon
    · exact h1

/-- C5 counterexample: with track_buffer 30, the scenario track that
was last matched at frame f is still alive at frame f + 30 - its state
is Lost, not Removed - and only becomes Removed on frame f + 31, so the
claim that removal happens exactly at frame f + track_buffer fails at
its upper edge. -/
theorem removed_at_buffer_cex :
    (ageTrackN scenarioTrack track_buffer).state ≠ TrackState.Removed
  ∧ (ageTrackN scenarioTrack (track_buffer + 1)).state = TrackState.Removed := by
  decide

/-- C5 amended: a track whose last match left time-since-update 0 stays
alive through every one of the first track_buffer unmatched frames and
transitions to Removed exactly on unmatched frame track_buffer + 1 -
one frame later than the claim states, matching the specification's own
scenario (removal on frame 31 after loss for track_buffer 30, not
frame 30) and its rule that removal fires once time-since-update
exceeds track_buffer. -/
theorem removed_exactly_after_buffer_exceeded (t : Track) (k : ℕ)
    (hs : t.state ≠ TrackState.Removed) (h0 : t.timeSinceUpdate = 0)
    (hk : k ≤ track_buffer) :
    (ageTrackN t k).state ≠ TrackState.Removed
  ∧ (ageTrackN t (track_buffer + 1)).state = TrackState.Removed := by
  constructor
  · exact ageTrackN_not_removed t k hs (by omega)
  · show (ageTrack (ageTrackN t track_buffer)).state = TrackState.Removed
    have h2 := ageTrackN_timeSinceUpdate t track_buffer
    simp only [ageTrack]
    rw [if_pos (by omega)]

/-- C5 witness: the amended statement applied to the scenario track at
k equal to track_buffer. -/
theorem removed_exactly_after_buffer_exceeded_witness :
    (scenarioTrack.state ≠ TrackState.Removed ∧ scenarioTrack.timeSinceUpdate = 0
      ∧ track_buffer ≤ track_buffer)
  ∧ ((ageTrackN scenarioTrack track_buffer).state ≠ TrackState.Removed
     ∧ (ageTrackN scenarioTrack (track_buffer + 1)).state = TrackState.Removed) :=
  ⟨⟨by decide, rfl, le_refl _⟩,
   removed_exactly_after_buffer_exceeded scenarioTrack track_buffer (by decide) rfl (le_refl _)⟩

theorem govRun_comfort_aux (c : GovConfig) (ha0 : 0 ≤ c.alpha) (ha1 : c.alpha ≤ 1)
    (hcb : c.comfort ≤ c.budget) :
    ∀ (samples : List ℚ) (g : GovState), g.avg ≤ c.comfort →
      (∀ x ∈ samples, x ≤ c.comfort) → 1 ≤ samples.length →
      c.window ≤ g.underCount + samples.length → (govRun c g samples).skip = 1 := by
  intro samples
  induction samples with
  | nil => intro g _ _ hlen _; simp at hlen
  | cons x xs ih =>
    intro g hg hs hlen hw
    have hx : x ≤ c.comfort := hs x (List.mem_cons_self x xs)
    have havg : (1 - c.alpha) * g.avg + c.alpha * x ≤ c.comfort := by
      have p1 : (1 - c.alpha) * g.avg ≤ (1 - c.alpha) * c.comfort :=
        mul_le_mul_of_nonneg_left hg (by linarith)
      have p2 : c.alpha * x ≤ c.alpha * c.comfort := mul_le_mul_of_nonneg_left hx ha0
      have p3 : (1 - c.alpha) * c.comfort + c.alpha * c.comfort = c.comfort := by ring
      linarith
    have hnb : ¬ (c.budget < (1 - c.alpha) * g.avg + c.alpha * x) :=
      not_lt.mpr (le_trans havg hcb)
    have estep : govStep c g x =
        if c.window ≤ g.underCount + 1 then
          { avg := (1 - c.alpha) * g.avg + c.alpha * x, skip := 1,
            underCount := g.underCount + 1 }
        else
          { avg := (1 - c.alpha) * g.avg + c.alpha * x, skip := g.skip,
            underCount := g.underCount + 1 } := by
      simp only [govStep]
      rw [if_neg hnb, if_pos havg]
    have erun : govRun c g (x :: xs) = govRun c (govStep c g x) xs := rfl
    cases xs with
    | nil =>
      rw [erun]
      show (govStep c g x).skip = 1
      rw [estep]
      rw [if_pos (by simpa using hw)]
    | cons y ys =>
      rw [erun]
      apply ih (govStep c g x)
      · rw [estep]; split <;> exact havg
      · intro z hz; exact hs z (List.mem_cons_of_mem x hz)
      · simp
      · have huc : (govStep c g x).underCount = g.underCount + 1 := by
          rw [estep]; split <;> rfl
        rw [huc]
        simp only [List.length_cons] at hw ⊢
        omega

/-- C6 counterexample: ten consecutive 11 ms latency samples against the
10 ms budget - every sample of the sequence over budget - yet the
skip interval does not strictly increase on each cycle: the smoothed
average starts at 0 and lags the samples, so the first cycles leave the
interval at 1 (the per-cycle skip trace is 1,1,1,2,3,4,5,6,7,8). -/
theorem governor_strict_increase_cex :
    govSamples = List.replicate 10 (11 : ℚ)
  ∧ gCfg.budget < 11
  ∧ govTrace gCfg gInit govSamples = [1, 1, 1, 2, 3, 4, 5, 6, 7, 8]
  ∧ ¬ List.Chain (· < ·) gInit.skip (govTrace gCfg gInit govSamples) := by
  refine ⟨rfl, by with_unfolding_all decide, by with_unfolding_all decide, ?_⟩
  intro hc
  rw [show govTrace gCfg gInit govSamples = [1, 1, 1, 2, 3, 4, 5, 6, 7, 8] from
    by with_unfolding_all decide] at hc
  rw [List.chain_cons] at hc
  exact absurd hc.1 (by decide)

/-- C6 amended: the governor's skip interval never exceeds the
configured ceiling; it strictly increases on every cycle on which the
updated smoothed average exceeds the budget while the interval is below
the ceiling; and after a run of comfortably-under-budget cycles at
least as long as the hysteresis window (and covering it, for example
ten cycles with window at most ten), the interval is back to 1. -/
theorem governor_skip_behavior (c : GovConfig) :
    (∀ (g : GovState) (x : ℚ), g.skip ≤ c.ceiling → 1 ≤ c.ceiling →
        (govStep c g x).skip ≤ c.ceiling)
  ∧ (∀ (g : GovState) (x : ℚ), g.skip < c.ceiling →
        c.budget < (1 - c.alpha) * g.avg + c.alpha * x → g.skip < (govStep c g x).skip)
  ∧ (0 ≤ c.alpha → c.alpha ≤ 1 → c.comfort ≤ c.budget →
      ∀ (g : GovState) (samples : List ℚ), g.avg ≤ c.comfort →
        (∀ x ∈ samples, x ≤ c.comfort) → 1 ≤ samples.length →
        c.window ≤ g.underCount + samples.length → (govRun c g samples).skip = 1) := by
  refine ⟨?_, ?_, ?_⟩
  · intro g x h1 h2
    simp only [govStep]
    split
    · exact min_le_right _ _
    · split
      · split
        · exact h2
        · exact h1
      · exact h1
  · intro g x h1 h2
    simp only [govStep]
    rw [if_pos h2]
    show g.skip < min (g.skip + 1) c.ceiling
    omega
  · intro ha0 ha1 hcb g samples
    exact govRun_comfort_aux c ha0 ha1 hcb samples g

/-- C6 witness: the three parts of the amended statement at the
concrete configuration gCfg - a saturating over-budget step stays
within the ceiling, an over-budget step from skip 1 strictly increases,
and ten comfortable 1 ms cycles return a skip of 7 to 1. -/
theorem governor_skip_behavior_witness :
    (govStep gCfg { avg := 20, skip := 1, underCount := 0 } 20).skip ≤ gCfg.ceiling
  ∧ 1 < (govStep gCfg { avg := 20, skip := 1, underCount := 0 } 20).skip
  ∧ (govRun gCfg { avg := 0, skip := 7, underCount := 0 } (List.replicate 10 (1 : ℚ))).skip = 1 :=
  ⟨(governor_skip_behavior gCfg).1 { avg := 20, skip := 1, underCount := 0 } 20
     (by decide) (by decide),
   (governor_skip_behavior gCfg).2.1 { avg := 20, skip := 1, underCount := 0 } 20
     (by decide) (by with_unfolding_all decide),
   (governor_skip_behavior gCfg).2.2 (by with_unfolding_all decide)
     (by with_unfolding_all decide) (by with_unfolding_all decide)
     { avg := 0, skip := 7, underCount := 0 } (List.replicate 10 (1 : ℚ))
     (by with_unfolding_all decide) (by with_unfolding_all decide)
     (by decide) (by decide)⟩

theorem getD_mem_of_lt {α : Type} (l : List α) (n : ℕ) (d : α) (h : n < l.length) :
    l.getD n d ∈ l := by
  induction l generalizing n with
  | nil => simp at h
  | cons a t ih =>
    cases n with
    | zero => simp
    | succ m =>
      rw [List.getD_cons_succ]
      exact List.mem_cons_of_mem a (ih m (by simpa using h))

/-- C7 counterexample: vhd1 and vhd2 are two live detections of the
same tracked id 42 carrying different colors (the color is redrawn on
every re-detection), and vhd1 and vhd3 are two distinct live tracks
(ids 42 and 43) carrying the same color (the draw avoids no collision):
both halves of the claim fail. -/
theorem track_color_cex :
    (vhd1.id = vhd2.id ∧ vhd1.color ≠ vhd2.color)
  ∧ (vhd1.id ≠ vhd3.id ∧ vhd1.color = vhd3.color) := by
  with_unfolding_all decide

/-- C7 amended: a detection's color is fixed in its record at creation
as the palette entry selected by its own color draw, and always lies in
the fixed eight-color palette; but the draw consults neither the ids
nor the colors of the other live detections, so a re-detection of the
same id may change color and two live detections may collide. -/
theorem color_assigned_from_palette (cw ch rId rConf rX rY rW rH rColor : ℚ)
    (_h0 : 0 ≤ rColor) (h1 : rColor < 1) :
    (generateRandomDetection cw ch rId rConf rX rY rW rH rColor).color = getRandomColor rColor
  ∧ getRandomColor rColor ∈ vhColors := by
  refine ⟨rfl, ?_⟩
  have hlen : vhColors.length = 8 := rfl
  show vhColors.getD (Int.toNat ⌊rColor * (vhColors.length : ℚ)⌋) strEmpty ∈ vhColors
  apply getD_mem_of_lt
  rw [hlen]
  have h8 : ⌊rColor * ((8 : ℕ) : ℚ)⌋ < (8 : ℤ) := Int.floor_lt.mpr (by push_cast; linarith)
  omega

/-- C7 witness: the amended statement at the draws producing vhd1. -/
theorem color_assigned_from_palette_witness :
    ((0 : ℚ) ≤ 0 ∧ (0 : ℚ) < 1)
  ∧ ((generateRandomDetection 1280 720 (42/100) 0 0 0 0 0 0).color = getRandomColor 0
     ∧ getRandomColor 0 ∈ vhColors) :=
  ⟨⟨le_refl 0, by norm_num⟩,
   color_assigned_from_palette 1280 720 (42/100) 0 0 0 0 0 0 (le_refl 0) (by norm_num)⟩

/-- C8 counterexample: switching from yolov11m to the unrecognized
identifier bogus raises no error - the switch returns a normal state
carrying the unknown identifier - and the configuration used afterwards
is the default yolov11n one: neither the previously active yolov11m
adapter nor a null adapter reporting zero detections. -/
theorem model_load_error_cex :
    (setModel prevState bogusModelKey).currentModel = bogusModelKey
  ∧ getModelConfig bogusModelKey = getModelConfig defaultModelKey
  ∧ getModelConfig bogusModelKey ≠ getModelConfig prevState.currentModel
  ∧ (getModelConfig bogusModelKey).maxDetections ≠ 0 := by
  with_unfolding_all decide

/-- C8 amended: a switch naming any unrecognized model identifier is
accepted silently - no error value exists in the code, the state
returned carries the unknown identifier - and every configuration
lookup afterwards falls back to the default yolov11n configuration
rather than to the previously active adapter or to a null adapter; the
processing loop continues. -/
theorem unknown_model_silent_default (s : EngineState) (name : String)
    (h : name ∉ knownModels) :
    (setModel s name).currentModel = name
  ∧ getModelConfig ((setModel s name).currentModel) = getModelConfig defaultModelKey := by
  simp only [knownModels, List.mem_cons, List.not_mem_nil, or_false, not_or] at h
  obtain ⟨h1, h2, h3, h4⟩ := h
  refine ⟨rfl, ?_⟩
  show getModelConfig name = getModelConfig defaultModelKey
  unfold getModelConfig
  rw [if_neg h1, if_neg h2, if_neg h3, if_neg h4,
    if_pos (show defaultModelKey = "yolov11n" from rfl)]

/-- C8 witness: the amended statement at the unrecognized identifier
missing-model. -/
theorem unknown_model_silent_default_witness :
    missingModelKey ∉ knownModels
  ∧ ((setModel initEngine missingModelKey).currentModel = missingModelKey
     ∧ getModelConfig ((setModel initEngine missingModelKey).currentModel)
         = getModelConfig defaultModelKey) :=
  ⟨by decide, unknown_model_silent_default initEngine missingModelKey (by decide)⟩

end DD
